import Mathlib

set_option maxRecDepth 40000

/-
Shallow embedding of the PF_Tek fruiting-chamber air-exchange controller.

The repository contains three Arduino sketches sharing one core:
  * `src/unnamed/part_000` ("PF_Tek1.3", dual-timestamp EEPROM layout:
    Uptime, AirStatus, AirStart, AirStop) — embedded below as `Tek13`.
  * `src/PF_Tek1_2.ino` and `src/unnamed/part_001` (single-timestamp
    layout: Uptime, AirStatus, AirTime; identical core logic, the .ino
    additionally polls sensors which never touch the core state) —
    embedded below as `Tek12`.

All machine integers are `uint32_t` (or `uint8_t` for the status byte),
modelled as `Nat` with explicit reduction modulo `2 ^ 32`.  EEPROM cells
are extra state fields prefixed with `e`; `EEPROM.updateByte/updateLong`
write only when the value differs (EEPROMex "update" semantics) and
`EEPROM.writeLong` writes unconditionally.  Every durable write is also
recorded in an append-only event log so that write-count and
write-ordering properties can be stated.  Serial printing, the pin-13
life indicator and the sensor code have no effect on the core state and
are omitted.
-/

namespace AVR

/-- `2 ^ 32`, the modulus of `uint32_t` arithmetic on the AVR. -/
def U32 : Nat := 4294967296

/-- Unsigned 32-bit subtraction `a - b` (two's-complement wraparound),
for `a b < U32`. -/
def sub32 (a b : Nat) : Nat := (a + U32 - b) % U32

/-- `#define AIR_INTERVAL 3600  // every hour` -/
def AIR_INTERVAL : Nat := 3600

/-- `#define AIR_DURATION 120  // for 2 minutes` -/
def AIR_DURATION : Nat := 120

/-- `#define UPTIME_STORE_INTERVAL 60  // maximum 60 seconds uptime loss` -/
def UPTIME_STORE_INTERVAL : Nat := 60

/-- `#define TO_MACHINE_TIME(X)  (unsigned long)X*1000` (32-bit multiply). -/
def TO_MACHINE_TIME (x : Nat) : Nat := (x * 1000) % U32

/-- One durable (EEPROM) write event, tagged with the field written and
the value written. -/
inductive Ev where
  | evStatus (v : Nat)
  | evAirStart (v : Nat)
  | evAirStop (v : Nat)
  | evAirTime (v : Nat)
  | evUptime (v : Nat)
deriving Repr, DecidableEq

/-- The values of the durable uptime writes in a log, in order. -/
def uptimeWrites (l : List Ev) : List Nat :=
  l.filterMap (fun e => match e with | .evUptime v => some v | _ => none)

/-- The values of the durable air-status writes in a log, in order. -/
def statusWrites (l : List Ev) : List Nat :=
  l.filterMap (fun e => match e with | .evStatus v => some v | _ => none)

namespace Tek13

/-- Full machine state of `src/unnamed/part_000`: the volatile globals,
the EEPROM cells (`e*`), the actuator pin 6, and the write log. -/
structure State where
  uptime : Nat
  uptimeStoreTime : Nat
  previousUptime : Nat
  airStatus : Nat
  airStart : Nat
  airStop : Nat
  eUptime : Nat
  eAirStatus : Nat
  eAirStart : Nat
  eAirStop : Nat
  pin6 : Bool
  log : List Ev
deriving Repr, DecidableEq

/-- `countTime()`: `uptime += (millis() - previousUptime);
previousUptime = millis();` with `m` the current `millis()` reading. -/
def countTime (m : Nat) (s : State) : State :=
  { s with uptime := (s.uptime + sub32 (m % U32) s.previousUptime) % U32
         , previousUptime := m % U32 }

/-- The EEPROM read-back at the top of `loop()`:
`airStatus = EEPROM.readByte(addressAirStatus);
airStart = EEPROM.readLong(addressAirStart);
airStop = EEPROM.readLong(addressAirStop);` -/
def readAir (s : State) : State :=
  { s with airStatus := s.eAirStatus, airStart := s.eAirStart
         , airStop := s.eAirStop }

/-- `scheduledAir()`: `(uptime - airStop) > TO_MACHINE_TIME(AIR_INTERVAL)`. -/
def scheduledAir (s : State) : Bool :=
  decide (TO_MACHINE_TIME AIR_INTERVAL < sub32 s.uptime s.airStop)

/-- `airOn()`: `airStatus == 1`. -/
def airOn (s : State) : Bool := s.airStatus == 1

/-- `needAir()`: `(uptime - airStart) < TO_MACHINE_TIME(AIR_DURATION)`. -/
def needAir (s : State) : Bool :=
  decide (sub32 s.uptime s.airStart < TO_MACHINE_TIME AIR_DURATION)

/-- `deviceSetOn()`: `digitalWrite(6, HIGH);` -/
def deviceSetOn (s : State) : State := { s with pin6 := true }

/-- `deviceSetOff()`: `digitalWrite(6, LOW);` -/
def deviceSetOff (s : State) : State := { s with pin6 := false }

/-- `storeUptime()`: `uptimeStoreTime = uptime;
EEPROM.writeLong(addressUptime, uptime);` (unconditional write). -/
def storeUptime (s : State) : State :=
  { s with uptimeStoreTime := s.uptime, eUptime := s.uptime
         , log := s.log ++ [Ev.evUptime s.uptime] }

/-- `EEPROM.updateByte(addressAirStatus, v)`: writes only if changed. -/
def updStatus (v : Nat) (s : State) : State :=
  if s.eAirStatus = v then s
  else { s with eAirStatus := v, log := s.log ++ [Ev.evStatus v] }

/-- `EEPROM.updateLong(addressAirStart, v)`: writes only if changed. -/
def updAirStart (v : Nat) (s : State) : State :=
  if s.eAirStart = v then s
  else { s with eAirStart := v, log := s.log ++ [Ev.evAirStart v] }

/-- `EEPROM.updateLong(addressAirStop, v)`: writes only if changed. -/
def updAirStop (v : Nat) (s : State) : State :=
  if s.eAirStop = v then s
  else { s with eAirStop := v, log := s.log ++ [Ev.evAirStop v] }

/-- `setAirOn()`: persist status byte 1 and `airStart = uptime`, then
`storeUptime()`.  Note: the volatile `airStatus`, `airStart` copies are
NOT updated. -/
def setAirOn (s : State) : State :=
  storeUptime (updAirStart s.uptime (updStatus 1 s))

/-- `setAirOff()`: persist status byte 0 and `airStop = uptime`, then
`storeUptime()`. -/
def setAirOff (s : State) : State :=
  storeUptime (updAirStop s.uptime (updStatus 0 s))

/-- `periodicUptimeSave()`:
`uptime > uptimeStoreTime + TO_MACHINE_TIME(UPTIME_STORE_INTERVAL)`
(32-bit addition, unsigned comparison). -/
def periodicUptimeSave (s : State) : Bool :=
  decide ((s.uptimeStoreTime + TO_MACHINE_TIME UPTIME_STORE_INTERVAL) % U32
            < s.uptime)

/-- First air block of `loop()`:
`if (!airOn()) { if (scheduledAir()) setAirOn(); }` -/
def airCheckOff (s : State) : State :=
  if !airOn s then (if scheduledAir s then setAirOn s else s) else s

/-- Second air block of `loop()`:
`if (airOn()) { if (needAir()) deviceSetOn(); else { setAirOff();
deviceSetOff(); } }` -/
def airCheckOn (s : State) : State :=
  if airOn s then
    (if needAir s then deviceSetOn s else deviceSetOff (setAirOff s))
  else s

/-- The air-machine section of `loop()`: the two blocks in order. -/
def airPhase (s : State) : State := airCheckOn (airCheckOff s)

/-- `if (periodicUptimeSave()) storeUptime();` -/
def savePhase (s : State) : State :=
  if periodicUptimeSave s then storeUptime s else s

/-- One iteration of `loop()` at `millis() = m`
(serial printing and `delay(1000)` have no state effect). -/
def loop (m : Nat) (s : State) : State :=
  savePhase (airPhase (readAir (countTime m s)))

/-- `setup()` from an EEPROM snapshot `(eU, eS, eStart, eStop)`:
`initUptime()` loads `uptime` and sets `uptimeStoreTime = uptime`; all
other globals are zero-initialised; pins start LOW. -/
def boot (eU eS eStart eStop : Nat) : State :=
  { uptime := eU % U32, uptimeStoreTime := eU % U32, previousUptime := 0
  , airStatus := 0, airStart := 0, airStop := 0
  , eUptime := eU % U32, eAirStatus := eS % 256
  , eAirStart := eStart % U32, eAirStop := eStop % U32
  , pin6 := false, log := [] }

/-- Run `loop()` once per entry of `ms`, the successive `millis()`
readings. -/
def run (ms : List Nat) (s : State) : State :=
  ms.foldl (fun s m => loop m s) s

/-- Iterate the accumulator step `countTime` alone, once per cycle, where
`ds` lists the true elapsed milliseconds of each cycle: the hardware
tick observed at each step is the previous tick plus the delta, reduced
modulo `2 ^ 32` inside `countTime`. -/
def advanceRun (ds : List Nat) (s : State) : State :=
  match ds with
  | [] => s
  | d :: ds => advanceRun ds (countTime (s.previousUptime + d) s)

end Tek13

namespace Tek12

/-- Full machine state of `src/PF_Tek1_2.ino` / `src/unnamed/part_001`:
volatile globals, the EEPROM cells (`e*`), actuator pin 6, write log. -/
structure State where
  uptime : Nat
  uptimeStoreTime : Nat
  previousUptime : Nat
  lastAir : Nat
  airStatus : Nat
  airStart : Nat
  timeSinceAir : Nat
  eUptime : Nat
  eAirStatus : Nat
  eAirTime : Nat
  pin6 : Bool
  log : List Ev
deriving Repr, DecidableEq

/-- `updateLocalUptime()`: `uptime += (millis() - previousUptime);
previousUptime = millis();` -/
def updateLocalUptime (m : Nat) (s : State) : State :=
  { s with uptime := (s.uptime + sub32 (m % U32) s.previousUptime) % U32
         , previousUptime := m % U32 }

/-- The EEPROM read-back at the top of `loop()`:
`airStatus = EEPROM.readByte(addressAirStatus);
lastAir = EEPROM.readLong(addressAirTime);`
(the volatile `airStart` is NOT re-read). -/
def readAir (s : State) : State :=
  { s with airStatus := s.eAirStatus, lastAir := s.eAirTime }

/-- `calculateTimeSinceAir()`: `timeSinceAir = (uptime - lastAir);` -/
def calculateTimeSinceAir (s : State) : State :=
  { s with timeSinceAir := sub32 s.uptime s.lastAir }

/-- `isAir()`: `airStatus == 1`. -/
def isAir (s : State) : Bool := s.airStatus == 1

/-- `needAir()`: when ON, `(uptime - airStart) < TO_MACHINE_UPTIME(AIR_DURATION)`;
when OFF, `timeSinceAir > TO_MACHINE_UPTIME(AIR_INTERVAL)`. -/
def needAir (s : State) : Bool :=
  if isAir s then
    decide (sub32 s.uptime s.airStart < TO_MACHINE_TIME AIR_DURATION)
  else
    decide (TO_MACHINE_TIME AIR_INTERVAL < s.timeSinceAir)

/-- `EEPROM.updateByte(addressAirStatus, v)`: writes only if changed. -/
def updStatus (v : Nat) (s : State) : State :=
  if s.eAirStatus = v then s
  else { s with eAirStatus := v, log := s.log ++ [Ev.evStatus v] }

/-- `EEPROM.updateLong(addressAirTime, v)`: writes only if changed. -/
def updAirTime (v : Nat) (s : State) : State :=
  if s.eAirTime = v then s
  else { s with eAirTime := v, log := s.log ++ [Ev.evAirTime v] }

/-- `startAir()`: `airStart = uptime;` (volatile only!), persist status
byte 1, `digitalWrite(6, HIGH)`.  The start timestamp is never written
to EEPROM and no uptime checkpoint is taken. -/
def startAir (s : State) : State :=
  let s1 : State := { s with airStart := s.uptime }
  let s2 := updStatus 1 s1
  { s2 with pin6 := true }

/-- `stopAir()`: persist `airTime = uptime` then status byte 0,
`digitalWrite(6, LOW)`.  No uptime checkpoint is taken. -/
def stopAir (s : State) : State :=
  let s1 := updStatus 0 (updAirTime s.uptime s)
  { s1 with pin6 := false }

/-- `storeUptime()`: `uptimeStoreTime = uptime;
EEPROM.writeLong(addressUptime, uptime);` -/
def storeUptime (s : State) : State :=
  { s with uptimeStoreTime := s.uptime, eUptime := s.uptime
         , log := s.log ++ [Ev.evUptime s.uptime] }

/-- `periodicUptimeSave()`:
`uptime > uptimeStoreTime + TO_MACHINE_UPTIME(UPTIME_STORE_INTERVAL)`. -/
def periodicUptimeSave (s : State) : Bool :=
  decide ((s.uptimeStoreTime + TO_MACHINE_TIME UPTIME_STORE_INTERVAL) % U32
            < s.uptime)

/-- The air-machine section of `loop()` (`continueAir()` is a no-op):
`if (needAir()) { if (!isAir()) startAir(); }
else { if (isAir()) stopAir(); }`. -/
def airPhase (s : State) : State :=
  if needAir s then (if !isAir s then startAir s else s)
  else (if isAir s then stopAir s else s)

/-- `if (periodicUptimeSave()) storeUptime();` -/
def savePhase (s : State) : State :=
  if periodicUptimeSave s then storeUptime s else s

/-- One iteration of `loop()` at `millis() = m` (sensor polling, serial
printing, the pin-13 toggle and `delay(1000)` have no core effect). -/
def loop (m : Nat) (s : State) : State :=
  savePhase (airPhase (calculateTimeSinceAir (readAir (updateLocalUptime m s))))

/-- `setup()` from an EEPROM snapshot `(eU, eS, eT)`: `initUptime()`
loads `uptime`, sets `uptimeStoreTime = uptime`; `initAir()` loads the
stored timestamp into the volatile `airStart`; other globals zero. -/
def boot (eU eS eT : Nat) : State :=
  { uptime := eU % U32, uptimeStoreTime := eU % U32, previousUptime := 0
  , lastAir := 0, airStatus := 0, airStart := eT % U32, timeSinceAir := 0
  , eUptime := eU % U32, eAirStatus := eS % 256, eAirTime := eT % U32
  , pin6 := false, log := [] }

/-- Run `loop()` once per entry of `ms`, the successive `millis()`
readings. -/
def run (ms : List Nat) (s : State) : State :=
  ms.foldl (fun s m => loop m s) s

/-- Iterate the accumulator step `updateLocalUptime` alone, once per
cycle, `ds` listing the true elapsed milliseconds of each cycle. -/
def advanceRun (ds : List Nat) (s : State) : State :=
  match ds with
  | [] => s
  | d :: ds => advanceRun ds (updateLocalUptime (s.previousUptime + d) s)

end Tek12

/-- `millis()` readings for the checkpoint-stall scenario: 63 cycles of
1000 ms each, starting from a boot whose stored uptime sits just below
the 32-bit wraparound. -/
def c4millis : List Nat := (List.range 63).map (fun i => 1000 * (i + 1))

/-- Boot state for the checkpoint-stall scenario: EEPROM holds
uptime = 2^32 − 60500, air OFF, last air stop at the same uptime. -/
def c4boot : Tek13.State := Tek13.boot (U32 - 60500) 0 0 (U32 - 60500)

/-- `millis()` readings for the double-write scenario: from a blank
EEPROM, 60 cycles of 60000 ms each, then one cycle 1000 ms later. -/
def c6millis : List Nat :=
  (List.range 60).map (fun i => 60000 * (i + 1)) ++ [3601000]

/-- `cadenceLe bound prev ms` holds when each successive `millis()`
reading in `ms` is at most `bound` ms after the one before it (first
compared against `prev`): the cycle cadence never exceeds `bound`. -/
def cadenceLe (bound prev : Nat) : List Nat → Bool
  | [] => true
  | m :: ms => decide (m - prev ≤ bound) && cadenceLe bound m ms

/-! ### Arithmetic and bookkeeping lemmas -/

theorem U32_pos : 0 < U32 := by decide

theorem machineInterval : TO_MACHINE_TIME AIR_INTERVAL = 3600000 := by decide

theorem machineDuration : TO_MACHINE_TIME AIR_DURATION = 120000 := by decide

theorem machineStore : TO_MACHINE_TIME UPTIME_STORE_INTERVAL = 60000 := by
  decide

theorem sub32_eq_of_le {a b : Nat} (hb : b ≤ a) (ha : a < U32) :
    sub32 a b = a - b := by
  unfold sub32 U32 at *; omega

theorem sub32_add_mod_of_lt {p : Nat} (d : Nat) (hp : p < U32) :
    sub32 ((p + d) % U32) p = d % U32 := by
  unfold sub32 U32 at *; omega

theorem statusWrites_append (l l' : List Ev) :
    statusWrites (l ++ l') = statusWrites l ++ statusWrites l' := by
  simp [statusWrites]

theorem uptimeWrites_append (l l' : List Ev) :
    uptimeWrites (l ++ l') = uptimeWrites l ++ uptimeWrites l' := by
  simp [uptimeWrites]

/-! ### Field bookkeeping for the Tek13 machine -/

namespace Tek13

@[simp] theorem countTime_uptime (m : Nat) (s : State) :
    (countTime m s).uptime
      = (s.uptime + sub32 (m % U32) s.previousUptime) % U32 := rfl

theorem countTime_uptime_lt (m : Nat) (s : State) :
    (countTime m s).uptime < U32 := Nat.mod_lt _ U32_pos

@[simp] theorem updStatus_eAirStatus (v : Nat) (s : State) :
    (updStatus v s).eAirStatus = v := by
  unfold updStatus; split
  · next h => exact h
  · rfl

@[simp] theorem updStatus_uptime (v : Nat) (s : State) :
    (updStatus v s).uptime = s.uptime := by
  unfold updStatus; split <;> rfl

@[simp] theorem updStatus_airStatus (v : Nat) (s : State) :
    (updStatus v s).airStatus = s.airStatus := by
  unfold updStatus; split <;> rfl

@[simp] theorem updStatus_uptimeStoreTime (v : Nat) (s : State) :
    (updStatus v s).uptimeStoreTime = s.uptimeStoreTime := by
  unfold updStatus; split <;> rfl

@[simp] theorem updStatus_pin6 (v : Nat) (s : State) :
    (updStatus v s).pin6 = s.pin6 := by
  unfold updStatus; split <;> rfl

@[simp] theorem updAirStart_eAirStart (v : Nat) (s : State) :
    (updAirStart v s).eAirStart = v := by
  unfold updAirStart; split
  · next h => exact h
  · rfl

@[simp] theorem updAirStart_eAirStatus (v : Nat) (s : State) :
    (updAirStart v s).eAirStatus = s.eAirStatus := by
  unfold updAirStart; split <;> rfl

@[simp] theorem updAirStart_uptime (v : Nat) (s : State) :
    (updAirStart v s).uptime = s.uptime := by
  unfold updAirStart; split <;> rfl

@[simp] theorem updAirStart_airStatus (v : Nat) (s : State) :
    (updAirStart v s).airStatus = s.airStatus := by
  unfold updAirStart; split <;> rfl

@[simp] theorem updAirStart_uptimeStoreTime (v : Nat) (s : State) :
    (updAirStart v s).uptimeStoreTime = s.uptimeStoreTime := by
  unfold updAirStart; split <;> rfl

@[simp] theorem updAirStart_pin6 (v : Nat) (s : State) :
    (updAirStart v s).pin6 = s.pin6 := by
  unfold updAirStart; split <;> rfl

@[simp] theorem updAirStop_eAirStop (v : Nat) (s : State) :
    (updAirStop v s).eAirStop = v := by
  unfold updAirStop; split
  · next h => exact h
  · rfl

@[simp] theorem updAirStop_eAirStatus (v : Nat) (s : State) :
    (updAirStop v s).eAirStatus = s.eAirStatus := by
  unfold updAirStop; split <;> rfl

@[simp] theorem updAirStop_uptime (v : Nat) (s : State) :
    (updAirStop v s).uptime = s.uptime := by
  unfold updAirStop; split <;> rfl

@[simp] theorem updAirStop_airStatus (v : Nat) (s : State) :
    (updAirStop v s).airStatus = s.airStatus := by
  unfold updAirStop; split <;> rfl

@[simp] theorem updAirStop_uptimeStoreTime (v : Nat) (s : State) :
    (updAirStop v s).uptimeStoreTime = s.uptimeStoreTime := by
  unfold updAirStop; split <;> rfl

@[simp] theorem updAirStop_pin6 (v : Nat) (s : State) :
    (updAirStop v s).pin6 = s.pin6 := by
  unfold updAirStop; split <;> rfl

@[simp] theorem setAirOn_eAirStatus (s : State) :
    (setAirOn s).eAirStatus = 1 := by
  simp [setAirOn, storeUptime]

@[simp] theorem setAirOn_eAirStart (s : State) :
    (setAirOn s).eAirStart = s.uptime := by
  simp [setAirOn, storeUptime]

@[simp] theorem setAirOn_uptime (s : State) :
    (setAirOn s).uptime = s.uptime := by
  simp [setAirOn, storeUptime]

@[simp] theorem setAirOn_airStatus (s : State) :
    (setAirOn s).airStatus = s.airStatus := by
  simp [setAirOn, storeUptime]

@[simp] theorem setAirOn_uptimeStoreTime (s : State) :
    (setAirOn s).uptimeStoreTime = s.uptime := by
  simp [setAirOn, storeUptime]

@[simp] theorem setAirOn_eUptime (s : State) :
    (setAirOn s).eUptime = s.uptime := by
  simp [setAirOn, storeUptime]

@[simp] theorem setAirOn_pin6 (s : State) :
    (setAirOn s).pin6 = s.pin6 := by
  simp [setAirOn, storeUptime]

@[simp] theorem setAirOff_eAirStatus (s : State) :
    (setAirOff s).eAirStatus = 0 := by
  simp [setAirOff, storeUptime]

@[simp] theorem setAirOff_eAirStop (s : State) :
    (setAirOff s).eAirStop = s.uptime := by
  simp [setAirOff, storeUptime]

@[simp] theorem setAirOff_uptime (s : State) :
    (setAirOff s).uptime = s.uptime := by
  simp [setAirOff, storeUptime]

@[simp] theorem setAirOff_uptimeStoreTime (s : State) :
    (setAirOff s).uptimeStoreTime = s.uptime := by
  simp [setAirOff, storeUptime]

@[simp] theorem setAirOff_eUptime (s : State) :
    (setAirOff s).eUptime = s.uptime := by
  simp [setAirOff, storeUptime]

theorem updStatus_log (v : Nat) (s : State) :
    (updStatus v s).log = s.log
      ∨ (updStatus v s).log = s.log ++ [Ev.evStatus v] := by
  unfold updStatus; split
  · exact Or.inl rfl
  · exact Or.inr rfl

theorem updAirStart_log (v : Nat) (s : State) :
    (updAirStart v s).log = s.log
      ∨ (updAirStart v s).log = s.log ++ [Ev.evAirStart v] := by
  unfold updAirStart; split
  · exact Or.inl rfl
  · exact Or.inr rfl

theorem updAirStop_log (v : Nat) (s : State) :
    (updAirStop v s).log = s.log
      ∨ (updAirStop v s).log = s.log ++ [Ev.evAirStop v] := by
  unfold updAirStop; split
  · exact Or.inl rfl
  · exact Or.inr rfl

theorem statusWrites_updAirStart (v : Nat) (s : State) :
    statusWrites (updAirStart v s).log = statusWrites s.log := by
  rcases updAirStart_log v s with h | h <;>
    simp [h, statusWrites_append, statusWrites]

theorem statusWrites_updAirStop (v : Nat) (s : State) :
    statusWrites (updAirStop v s).log = statusWrites s.log := by
  rcases updAirStop_log v s with h | h <;>
    simp [h, statusWrites_append, statusWrites]

theorem statusWrites_updStatus_le (v : Nat) (s : State) :
    (statusWrites (updStatus v s).log).length
      ≤ (statusWrites s.log).length + 1 := by
  rcases updStatus_log v s with h | h <;>
    simp [h, statusWrites_append, statusWrites]

theorem statusWrites_storeUptime (s : State) :
    statusWrites (storeUptime s).log = statusWrites s.log := by
  simp [storeUptime, statusWrites_append, statusWrites]

theorem statusWrites_setAirOn_le (s : State) :
    (statusWrites (setAirOn s).log).length
      ≤ (statusWrites s.log).length + 1 := by
  unfold setAirOn
  rw [statusWrites_storeUptime, statusWrites_updAirStart]
  exact statusWrites_updStatus_le 1 s

theorem statusWrites_setAirOff_le (s : State) :
    (statusWrites (setAirOff s).log).length
      ≤ (statusWrites s.log).length + 1 := by
  unfold setAirOff
  rw [statusWrites_storeUptime, statusWrites_updAirStop]
  exact statusWrites_updStatus_le 0 s

end Tek13

/-! ### Field bookkeeping for the Tek12 machine -/

namespace Tek12

@[simp] theorem updateLocalUptime_uptime (m : Nat) (s : State) :
    (updateLocalUptime m s).uptime
      = (s.uptime + sub32 (m % U32) s.previousUptime) % U32 := rfl

theorem updateLocalUptime_uptime_lt (m : Nat) (s : State) :
    (updateLocalUptime m s).uptime < U32 := Nat.mod_lt _ U32_pos

@[simp] theorem updStatus_eAirStatus12 (v : Nat) (s : State) :
    (updStatus v s).eAirStatus = v := by
  unfold updStatus; split
  · next h => exact h
  · rfl

@[simp] theorem updStatus_uptime12 (v : Nat) (s : State) :
    (updStatus v s).uptime = s.uptime := by
  unfold updStatus; split <;> rfl

@[simp] theorem updStatus_airStatus12 (v : Nat) (s : State) :
    (updStatus v s).airStatus = s.airStatus := by
  unfold updStatus; split <;> rfl

@[simp] theorem updStatus_airStart (v : Nat) (s : State) :
    (updStatus v s).airStart = s.airStart := by
  unfold updStatus; split <;> rfl

@[simp] theorem updStatus_eAirTime (v : Nat) (s : State) :
    (updStatus v s).eAirTime = s.eAirTime := by
  unfold updStatus; split <;> rfl

@[simp] theorem updStatus_uptimeStoreTime12 (v : Nat) (s : State) :
    (updStatus v s).uptimeStoreTime = s.uptimeStoreTime := by
  unfold updStatus; split <;> rfl

@[simp] theorem updAirTime_eAirTime (v : Nat) (s : State) :
    (updAirTime v s).eAirTime = v := by
  unfold updAirTime; split
  · next h => exact h
  · rfl

@[simp] theorem updAirTime_eAirStatus (v : Nat) (s : State) :
    (updAirTime v s).eAirStatus = s.eAirStatus := by
  unfold updAirTime; split <;> rfl

@[simp] theorem updAirTime_uptime (v : Nat) (s : State) :
    (updAirTime v s).uptime = s.uptime := by
  unfold updAirTime; split <;> rfl

@[simp] theorem updAirTime_uptimeStoreTime (v : Nat) (s : State) :
    (updAirTime v s).uptimeStoreTime = s.uptimeStoreTime := by
  unfold updAirTime; split <;> rfl

@[simp] theorem startAir_eAirStatus (s : State) :
    (startAir s).eAirStatus = 1 := by
  simp [startAir]

@[simp] theorem startAir_airStart (s : State) :
    (startAir s).airStart = s.uptime := by
  simp [startAir]

@[simp] theorem startAir_pin6 (s : State) :
    (startAir s).pin6 = true := rfl

@[simp] theorem startAir_eAirTime (s : State) :
    (startAir s).eAirTime = s.eAirTime := by
  simp [startAir]

@[simp] theorem startAir_uptime (s : State) :
    (startAir s).uptime = s.uptime := by
  simp [startAir]

@[simp] theorem startAir_uptimeStoreTime (s : State) :
    (startAir s).uptimeStoreTime = s.uptimeStoreTime := by
  simp [startAir]

@[simp] theorem stopAir_eAirStatus (s : State) :
    (stopAir s).eAirStatus = 0 := by
  simp [stopAir]

@[simp] theorem stopAir_eAirTime (s : State) :
    (stopAir s).eAirTime = s.uptime := by
  simp [stopAir]

@[simp] theorem stopAir_pin6 (s : State) :
    (stopAir s).pin6 = false := rfl

@[simp] theorem stopAir_uptime (s : State) :
    (stopAir s).uptime = s.uptime := by
  simp [stopAir]

@[simp] theorem stopAir_uptimeStoreTime (s : State) :
    (stopAir s).uptimeStoreTime = s.uptimeStoreTime := by
  simp [stopAir]

theorem updStatus_log12 (v : Nat) (s : State) :
    (updStatus v s).log = s.log
      ∨ (updStatus v s).log = s.log ++ [Ev.evStatus v] := by
  unfold updStatus; split
  · exact Or.inl rfl
  · exact Or.inr rfl

theorem updAirTime_log (v : Nat) (s : State) :
    (updAirTime v s).log = s.log
      ∨ (updAirTime v s).log = s.log ++ [Ev.evAirTime v] := by
  unfold updAirTime; split
  · exact Or.inl rfl
  · exact Or.inr rfl

theorem statusWrites_updAirTime (v : Nat) (s : State) :
    statusWrites (updAirTime v s).log = statusWrites s.log := by
  rcases updAirTime_log v s with h | h <;>
    simp [h, statusWrites_append, statusWrites]

theorem statusWrites_updStatus_le12 (v : Nat) (s : State) :
    (statusWrites (updStatus v s).log).length
      ≤ (statusWrites s.log).length + 1 := by
  rcases updStatus_log12 v s with h | h <;>
    simp [h, statusWrites_append, statusWrites]

theorem statusWrites_storeUptime12 (s : State) :
    statusWrites (storeUptime s).log = statusWrites s.log := by
  simp [storeUptime, statusWrites_append, statusWrites]

theorem statusWrites_startAir_le (s : State) :
    (statusWrites (startAir s).log).length
      ≤ (statusWrites s.log).length + 1 := by
  unfold startAir
  exact statusWrites_updStatus_le12 1 _

theorem statusWrites_stopAir_le (s : State) :
    (statusWrites (stopAir s).log).length
      ≤ (statusWrites s.log).length + 1 := by
  unfold stopAir
  calc (statusWrites (updStatus 0 (updAirTime s.uptime s)).log).length
      ≤ (statusWrites (updAirTime s.uptime s).log).length + 1 :=
        statusWrites_updStatus_le12 0 _
    _ = (statusWrites s.log).length + 1 := by
        rw [statusWrites_updAirTime]

end Tek12

/-! ### Cycle-shape lemmas: how one `loop()` iteration reduces once the
guards are known -/

namespace Tek13

@[simp] theorem savePhase_eAirStatus (s : State) :
    (savePhase s).eAirStatus = s.eAirStatus := by
  unfold savePhase; split <;> rfl

@[simp] theorem savePhase_eAirStart (s : State) :
    (savePhase s).eAirStart = s.eAirStart := by
  unfold savePhase; split <;> rfl

@[simp] theorem savePhase_eAirStop (s : State) :
    (savePhase s).eAirStop = s.eAirStop := by
  unfold savePhase; split <;> rfl

@[simp] theorem savePhase_pin6 (s : State) :
    (savePhase s).pin6 = s.pin6 := by
  unfold savePhase; split <;> rfl

@[simp] theorem savePhase_uptime (s : State) :
    (savePhase s).uptime = s.uptime := by
  unfold savePhase; split <;> rfl

theorem savePhase_eUptime_of_eq {s : State} (h : s.eUptime = s.uptime) :
    (savePhase s).eUptime = s.uptime := by
  unfold savePhase; split
  · rfl
  · exact h

theorem savePhase_store_of_eq {s : State} (h : s.uptimeStoreTime = s.uptime) :
    (savePhase s).uptimeStoreTime = s.uptime := by
  unfold savePhase; split
  · rfl
  · exact h

theorem mem_savePhase_log {e : Ev} {s : State} (h : e ∈ s.log) :
    e ∈ (savePhase s).log := by
  unfold savePhase; split
  · exact List.mem_append_left _ h
  · exact h

theorem statusWrites_savePhase (s : State) :
    statusWrites (savePhase s).log = statusWrites s.log := by
  unfold savePhase; split
  · exact statusWrites_storeUptime s
  · rfl

theorem airOn_readAir (m : Nat) (s : State) :
    airOn (readAir (countTime m s)) = (s.eAirStatus == 1) := rfl

/-- A cycle from a durably-OFF state whose `scheduledAir` guard holds
reduces to `setAirOn` followed by the periodic-save check: the second
air block is skipped because the volatile `airStatus` is still stale. -/
theorem loop_off_sched (s : State) (m : Nat)
    (hOff : s.eAirStatus ≠ 1)
    (hSched : scheduledAir (readAir (countTime m s)) = true) :
    loop m s = savePhase (setAirOn (readAir (countTime m s))) := by
  have hA : airOn (readAir (countTime m s)) = false := by
    rw [airOn_readAir]; exact beq_eq_false_iff_ne.mpr hOff
  have hA2 : airOn (setAirOn (readAir (countTime m s))) = false := by
    unfold airOn at hA ⊢
    rw [setAirOn_airStatus]; exact hA
  unfold loop airPhase
  rw [show airCheckOff (readAir (countTime m s))
        = setAirOn (readAir (countTime m s)) by
      simp [airCheckOff, hA, hSched]]
  rw [show airCheckOn (setAirOn (readAir (countTime m s)))
        = setAirOn (readAir (countTime m s)) by
      simp [airCheckOn, hA2]]

/-- A cycle from a durably-OFF state whose `scheduledAir` guard fails is
a pure no-op apart from the periodic-save check. -/
theorem loop_off_idle (s : State) (m : Nat)
    (hOff : s.eAirStatus ≠ 1)
    (hSched : scheduledAir (readAir (countTime m s)) = false) :
    loop m s = savePhase (readAir (countTime m s)) := by
  have hA : airOn (readAir (countTime m s)) = false := by
    rw [airOn_readAir]; exact beq_eq_false_iff_ne.mpr hOff
  unfold loop airPhase
  rw [show airCheckOff (readAir (countTime m s))
        = readAir (countTime m s) by simp [airCheckOff, hA, hSched]]
  rw [show airCheckOn (readAir (countTime m s))
        = readAir (countTime m s) by simp [airCheckOn, hA]]

/-- A cycle from a durably-ON state whose `needAir` guard holds reduces
to `deviceSetOn` followed by the periodic-save check. -/
theorem loop_on_running (s : State) (m : Nat)
    (hOn : s.eAirStatus = 1)
    (hNeed : needAir (readAir (countTime m s)) = true) :
    loop m s = savePhase (deviceSetOn (readAir (countTime m s))) := by
  have hA : airOn (readAir (countTime m s)) = true := by
    rw [airOn_readAir, hOn]; rfl
  unfold loop airPhase
  rw [show airCheckOff (readAir (countTime m s))
        = readAir (countTime m s) by simp [airCheckOff, hA]]
  rw [show airCheckOn (readAir (countTime m s))
        = deviceSetOn (readAir (countTime m s)) by
      simp [airCheckOn, hA, hNeed]]

/-- A cycle from a durably-ON state whose `needAir` guard fails reduces
to `setAirOff` + `deviceSetOff` followed by the periodic-save check. -/
theorem loop_on_expired (s : State) (m : Nat)
    (hOn : s.eAirStatus = 1)
    (hNeed : needAir (readAir (countTime m s)) = false) :
    loop m s = savePhase (deviceSetOff (setAirOff (readAir (countTime m s)))) := by
  have hA : airOn (readAir (countTime m s)) = true := by
    rw [airOn_readAir, hOn]; rfl
  unfold loop airPhase
  rw [show airCheckOff (readAir (countTime m s))
        = readAir (countTime m s) by simp [airCheckOff, hA]]
  rw [show airCheckOn (readAir (countTime m s))
        = deviceSetOff (setAirOff (readAir (countTime m s))) by
      simp [airCheckOn, hA, hNeed]]

end Tek13

namespace Tek12

@[simp] theorem savePhase_eAirStatus12 (s : State) :
    (savePhase s).eAirStatus = s.eAirStatus := by
  unfold savePhase; split <;> rfl

@[simp] theorem savePhase_eAirTime (s : State) :
    (savePhase s).eAirTime = s.eAirTime := by
  unfold savePhase; split <;> rfl

@[simp] theorem savePhase_pin612 (s : State) :
    (savePhase s).pin6 = s.pin6 := by
  unfold savePhase; split <;> rfl

@[simp] theorem savePhase_uptime12 (s : State) :
    (savePhase s).uptime = s.uptime := by
  unfold savePhase; split <;> rfl

@[simp] theorem savePhase_airStart (s : State) :
    (savePhase s).airStart = s.airStart := by
  unfold savePhase; split <;> rfl

theorem savePhase_uptimeStoreTime_of_ne {s : State}
    (h : periodicUptimeSave s = false) :
    (savePhase s).uptimeStoreTime = s.uptimeStoreTime := by
  unfold savePhase; rw [h]; rfl

theorem statusWrites_savePhase12 (s : State) :
    statusWrites (savePhase s).log = statusWrites s.log := by
  unfold savePhase; split
  · exact statusWrites_storeUptime12 s
  · rfl

theorem isAir_pre (m : Nat) (s : State) :
    isAir (calculateTimeSinceAir (readAir (updateLocalUptime m s)))
      = (s.eAirStatus == 1) := rfl

/-- A cycle whose `needAir` guard holds while the durable state is OFF
reduces to `startAir` followed by the periodic-save check. -/
theorem loop_off_trigger (s : State) (m : Nat)
    (hOff : s.eAirStatus ≠ 1)
    (hNeed : needAir (calculateTimeSinceAir (readAir (updateLocalUptime m s)))
               = true) :
    loop m s
      = savePhase (startAir
          (calculateTimeSinceAir (readAir (updateLocalUptime m s)))) := by
  have hA : isAir (calculateTimeSinceAir (readAir (updateLocalUptime m s)))
      = false := by
    rw [isAir_pre]; exact beq_eq_false_iff_ne.mpr hOff
  unfold loop airPhase
  rw [hNeed, hA]
  rfl

/-- A cycle whose `needAir` guard holds while the durable state is ON is
a pure no-op apart from the periodic-save check. -/
theorem loop_on_running12 (s : State) (m : Nat)
    (hOn : s.eAirStatus = 1)
    (hNeed : needAir (calculateTimeSinceAir (readAir (updateLocalUptime m s)))
               = true) :
    loop m s
      = savePhase (calculateTimeSinceAir (readAir (updateLocalUptime m s))) := by
  have hA : isAir (calculateTimeSinceAir (readAir (updateLocalUptime m s)))
      = true := by
    rw [isAir_pre, hOn]; rfl
  unfold loop airPhase
  rw [hNeed, hA]
  rfl

/-- A cycle whose `needAir` guard fails while the durable state is ON
reduces to `stopAir` followed by the periodic-save check. -/
theorem loop_on_expired12 (s : State) (m : Nat)
    (hOn : s.eAirStatus = 1)
    (hNeed : needAir (calculateTimeSinceAir (readAir (updateLocalUptime m s)))
               = false) :
    loop m s
      = savePhase (stopAir
          (calculateTimeSinceAir (readAir (updateLocalUptime m s)))) := by
  have hA : isAir (calculateTimeSinceAir (readAir (updateLocalUptime m s)))
      = true := by
    rw [isAir_pre, hOn]; rfl
  unfold loop airPhase
  rw [hNeed, hA]
  rfl

/-- A cycle whose `needAir` guard fails while the durable state is OFF
is a pure no-op apart from the periodic-save check. -/
theorem loop_off_idle12 (s : State) (m : Nat)
    (hOff : s.eAirStatus ≠ 1)
    (hNeed : needAir (calculateTimeSinceAir (readAir (updateLocalUptime m s)))
               = false) :
    loop m s
      = savePhase (calculateTimeSinceAir (readAir (updateLocalUptime m s))) := by
  have hA : isAir (calculateTimeSinceAir (readAir (updateLocalUptime m s)))
      = false := by
    rw [isAir_pre]; exact beq_eq_false_iff_ne.mpr hOff
  unfold loop airPhase
  rw [hNeed, hA]
  rfl

end Tek12

namespace Tek13

theorem evUptime_mem_setAirOn (s : State) :
    Ev.evUptime s.uptime ∈ (setAirOn s).log := by
  unfold setAirOn storeUptime
  simp

theorem evUptime_mem_setAirOff (s : State) :
    Ev.evUptime s.uptime ∈ (setAirOff s).log := by
  unfold setAirOff storeUptime
  simp

theorem airPhase_uptime (s : State) : (airPhase s).uptime = s.uptime := by
  unfold airPhase airCheckOn airCheckOff
  split_ifs <;> simp [deviceSetOn, deviceSetOff]

theorem airPhase_storeTime (s : State) :
    (airPhase s).uptimeStoreTime = s.uptimeStoreTime
  ∨ (airPhase s).uptimeStoreTime = s.uptime := by
  unfold airPhase airCheckOn airCheckOff
  split_ifs <;> simp [deviceSetOn, deviceSetOff]

theorem countTime_advance (s : State) (d : Nat)
    (hp : s.previousUptime < U32) :
    (countTime (s.previousUptime + d) s).uptime
      = (s.uptime + d % U32) % U32 := by
  show (s.uptime + sub32 ((s.previousUptime + d) % U32) s.previousUptime)
        % U32 = _
  rw [sub32_add_mod_of_lt d hp]

theorem advanceRun_uptime (ds : List Nat) :
    ∀ (s : State), s.uptime < U32 → s.previousUptime < U32 →
      ds.sum < U32 →
      (advanceRun ds s).uptime = (s.uptime + ds.sum) % U32 := by
  induction ds with
  | nil =>
    intro s hu hp hs
    show s.uptime = (s.uptime + 0) % U32
    rw [Nat.add_zero, Nat.mod_eq_of_lt hu]
  | cons d ds ih =>
    intro s hu hp hs
    rw [List.sum_cons] at hs ⊢
    have hd : d < U32 := Nat.lt_of_le_of_lt (Nat.le_add_right d ds.sum) hs
    have hds : ds.sum < U32 :=
      Nat.lt_of_le_of_lt (Nat.le_add_left ds.sum d) hs
    show (advanceRun ds (countTime (s.previousUptime + d) s)).uptime = _
    rw [ih (countTime (s.previousUptime + d) s)
          (Nat.mod_lt _ U32_pos) (Nat.mod_lt _ U32_pos) hds,
        countTime_advance s d hp, Nat.mod_eq_of_lt hd,
        Nat.mod_add_mod, Nat.add_assoc]

end Tek13

namespace Tek12

theorem airPhase_uptime12 (s : State) : (airPhase s).uptime = s.uptime := by
  unfold airPhase
  split_ifs <;> simp

theorem airPhase_storeTime12 (s : State) :
    (airPhase s).uptimeStoreTime = s.uptimeStoreTime := by
  unfold airPhase
  split_ifs <;> simp

theorem updateLocalUptime_advance (s : State) (d : Nat)
    (hp : s.previousUptime < U32) :
    (updateLocalUptime (s.previousUptime + d) s).uptime
      = (s.uptime + d % U32) % U32 := by
  show (s.uptime + sub32 ((s.previousUptime + d) % U32) s.previousUptime)
        % U32 = _
  rw [sub32_add_mod_of_lt d hp]

theorem advanceRun_uptime12 (ds : List Nat) :
    ∀ (s : State), s.uptime < U32 → s.previousUptime < U32 →
      ds.sum < U32 →
      (advanceRun ds s).uptime = (s.uptime + ds.sum) % U32 := by
  induction ds with
  | nil =>
    intro s hu hp hs
    show s.uptime = (s.uptime + 0) % U32
    rw [Nat.add_zero, Nat.mod_eq_of_lt hu]
  | cons d ds ih =>
    intro s hu hp hs
    rw [List.sum_cons] at hs ⊢
    have hd : d < U32 := Nat.lt_of_le_of_lt (Nat.le_add_right d ds.sum) hs
    have hds : ds.sum < U32 :=
      Nat.lt_of_le_of_lt (Nat.le_add_left ds.sum d) hs
    show (advanceRun ds (updateLocalUptime (s.previousUptime + d) s)).uptime
          = _
    rw [ih (updateLocalUptime (s.previousUptime + d) s)
          (Nat.mod_lt _ U32_pos) (Nat.mod_lt _ U32_pos) hds,
        updateLocalUptime_advance s d hp, Nat.mod_eq_of_lt hd,
        Nat.mod_add_mod, Nat.add_assoc]

end Tek12

/-! ### Claim theorems -/

/-- C9: when the raw hardware millisecond tick wraps from a value near
`2^32 − 1` to a small value between two consecutive advance steps, the
delta computed by unsigned 32-bit subtraction equals the true elapsed
milliseconds.  Boundary case: previous tick `2^32 − 1000`, current tick
`2000` (the tick advanced by a true 3000 ms across the wrap); both
`Tek13.countTime` and `Tek12.updateLocalUptime` add exactly 3000 to the
accumulated uptime. -/
theorem c9_tick_wraparound :
    (Tek13.countTime 2000
      { uptime := 500000, uptimeStoreTime := 0, previousUptime := U32 - 1000
      , airStatus := 0, airStart := 0, airStop := 0, eUptime := 0
      , eAirStatus := 0, eAirStart := 0, eAirStop := 0, pin6 := false
      , log := [] }).uptime = 500000 + 3000
  ∧ (Tek12.updateLocalUptime 2000
      { uptime := 500000, uptimeStoreTime := 0, previousUptime := U32 - 1000
      , lastAir := 0, airStatus := 0, airStart := 0, timeSinceAir := 0
      , eUptime := 0, eAirStatus := 0, eAirTime := 0, pin6 := false
      , log := [] }).uptime = 500000 + 3000 := by
  decide

/-- C1 counterexample: in the dual-timestamp variant, a cycle that takes
the OFF → ON transition (guard `scheduledAir` holds: uptime 4000000,
airStop 0) persists the state byte but does NOT drive the actuator line
HIGH in that same cycle — pin 6 is still LOW at the end of the cycle,
because `setAirOn` never updates the volatile `airStatus` read by the
`airOn()` check that gates `deviceSetOn()`. -/
theorem c1_counterexample :
    Tek13.scheduledAir
        (Tek13.readAir (Tek13.countTime 0 (Tek13.boot 4000000 0 0 0))) = true
  ∧ (Tek13.loop 0 (Tek13.boot 4000000 0 0 0)).eAirStatus = 1
  ∧ (Tek13.loop 0 (Tek13.boot 4000000 0 0 0)).pin6 = false := by
  decide

/-- C3 counterexample: in the single-timestamp variant, the cycle that
takes the OFF → ON transition (boot snapshot uptime 4000000, air OFF,
airTime 0) writes only the status byte: the cycle's complete durable
write log is `[evStatus 1]`, with no uptime write, so the transition
does NOT perform an uptime checkpoint. -/
theorem c3_counterexample :
    (Tek12.loop 0 (Tek12.boot 4000000 0 0)).eAirStatus = 1
  ∧ (Tek12.loop 0 (Tek12.boot 4000000 0 0)).log = [Ev.evStatus 1]
  ∧ uptimeWrites (Tek12.loop 0 (Tek12.boot 4000000 0 0)).log = [] := by
  decide

/-- C4 counterexample: booting from a stored uptime of `2^32 − 60500`
(air OFF, last stop at the same uptime) and running 63 cycles of
1000 ms each, the uptime wraps past `2^32` without ever satisfying
`periodicUptimeSave` — the strict 32-bit comparison
`uptime > uptimeStoreTime + 60000` is skipped over by the wrap — so no
durable write of any kind occurs and the elapsed uptime since the last
checkpoint reaches 63000 ms, exceeding the claimed bound of
60000 ms + one 1000 ms cycle delta. -/
theorem c4_counterexample :
    (Tek13.run c4millis c4boot).uptimeStoreTime = U32 - 60500
  ∧ (Tek13.run c4millis c4boot).uptime = 2500
  ∧ (Tek13.run c4millis c4boot).log = []
  ∧ sub32 (Tek13.run c4millis c4boot).uptime
        (Tek13.run c4millis c4boot).uptimeStoreTime = 63000
  ∧ TO_MACHINE_TIME UPTIME_STORE_INTERVAL + 1000 < 63000 := by
  decide

/-- C5 counterexample: in the single-timestamp variant, after an
OFF → ON transition (boot snapshot uptime 4000000, air OFF, airTime 0;
one cycle at millis 0, one at millis 1000), the state at the top of the
second cycle — after the EEPROM read-back, right before the guards run —
has `airStatus = 1`, so `needAir()` compares against the volatile
`airStart = 4000000`, while the only durable timestamp `eAirTime`
still holds 0: a timestamp field used by the guards is not re-read from
durable storage and differs from every durable value. -/
theorem c5_counterexample :
    (Tek12.calculateTimeSinceAir (Tek12.readAir (Tek12.updateLocalUptime 1000
        (Tek12.loop 0 (Tek12.boot 4000000 0 0))))).airStatus = 1
  ∧ (Tek12.calculateTimeSinceAir (Tek12.readAir (Tek12.updateLocalUptime 1000
        (Tek12.loop 0 (Tek12.boot 4000000 0 0))))).airStart = 4000000
  ∧ (Tek12.calculateTimeSinceAir (Tek12.readAir (Tek12.updateLocalUptime 1000
        (Tek12.loop 0 (Tek12.boot 4000000 0 0))))).eAirTime = 0 := by
  decide

/-- C10: in every single control cycle of either variant, the durable
air-state byte is written at most once — the cycle's log gains at most
one status-byte write, so at most one air-state transition occurs per
cycle, for every state (reachable or not).  In the dual-timestamp
variant this holds because `setAirOn` leaves the volatile `airStatus`
stale, so the `airOn()` guard of the second block still sees OFF; in
the single-timestamp variant `startAir` and `stopAir` sit in exclusive
branches of one if/else. -/
theorem c10_theorem :
    (∀ (s : Tek13.State) (m : Nat),
       (statusWrites (Tek13.loop m s).log).length
         ≤ (statusWrites s.log).length + 1)
  ∧ (∀ (s : Tek12.State) (m : Nat),
       (statusWrites (Tek12.loop m s).log).length
         ≤ (statusWrites s.log).length + 1) := by
  constructor
  · intro s m
    by_cases hOn : s.eAirStatus = 1
    · by_cases hNeed :
          Tek13.needAir (Tek13.readAir (Tek13.countTime m s)) = true
      · rw [Tek13.loop_on_running s m hOn hNeed, Tek13.statusWrites_savePhase]
        exact Nat.le_succ _
      · rw [Tek13.loop_on_expired s m hOn (by simpa using hNeed),
            Tek13.statusWrites_savePhase]
        exact Tek13.statusWrites_setAirOff_le _
    · by_cases hSched :
          Tek13.scheduledAir (Tek13.readAir (Tek13.countTime m s)) = true
      · rw [Tek13.loop_off_sched s m hOn hSched, Tek13.statusWrites_savePhase]
        exact Tek13.statusWrites_setAirOn_le _
      · rw [Tek13.loop_off_idle s m hOn (by simpa using hSched),
            Tek13.statusWrites_savePhase]
        exact Nat.le_succ _
  · intro s m
    by_cases hOn : s.eAirStatus = 1
    · by_cases hNeed :
          Tek12.needAir (Tek12.calculateTimeSinceAir
            (Tek12.readAir (Tek12.updateLocalUptime m s))) = true
      · rw [Tek12.loop_on_running12 s m hOn hNeed, Tek12.statusWrites_savePhase12]
        exact Nat.le_succ _
      · rw [Tek12.loop_on_expired12 s m hOn (by simpa using hNeed),
            Tek12.statusWrites_savePhase12]
        exact Tek12.statusWrites_stopAir_le _
    · by_cases hNeed :
          Tek12.needAir (Tek12.calculateTimeSinceAir
            (Tek12.readAir (Tek12.updateLocalUptime m s))) = true
      · rw [Tek12.loop_off_trigger s m hOn hNeed, Tek12.statusWrites_savePhase12]
        exact Tek12.statusWrites_startAir_le _
      · rw [Tek12.loop_off_idle12 s m hOn (by simpa using hNeed),
            Tek12.statusWrites_savePhase12]
        exact Nat.le_succ _

/-- C5 amended: at the top of every cycle, before the guards run, the
dual-timestamp variant re-reads the status byte and both timestamps from
EEPROM, so all volatile guard inputs equal the durable values; the
single-timestamp variant re-reads only the status byte and the single
stored timestamp (`lastAir`), while the `airStart` field consulted by
the ON-guard keeps its volatile value and is never re-read. -/
theorem c5_theorem :
    (∀ (s : Tek13.State) (m : Nat),
       (Tek13.readAir (Tek13.countTime m s)).airStatus = s.eAirStatus
     ∧ (Tek13.readAir (Tek13.countTime m s)).airStart = s.eAirStart
     ∧ (Tek13.readAir (Tek13.countTime m s)).airStop = s.eAirStop)
  ∧ (∀ (s : Tek12.State) (m : Nat),
       (Tek12.calculateTimeSinceAir (Tek12.readAir
          (Tek12.updateLocalUptime m s))).airStatus = s.eAirStatus
     ∧ (Tek12.calculateTimeSinceAir (Tek12.readAir
          (Tek12.updateLocalUptime m s))).lastAir = s.eAirTime
     ∧ (Tek12.calculateTimeSinceAir (Tek12.readAir
          (Tek12.updateLocalUptime m s))).airStart = s.airStart) :=
  ⟨fun _ _ => ⟨rfl, rfl, rfl⟩, fun _ _ => ⟨rfl, rfl, rfl⟩⟩

/-- C2: for every durable snapshot with uptime `U`, air state ON and
start timestamp `S` satisfying `U − S < AIR_DURATION_MS` (32-bit
subtraction), boot followed by exactly one control cycle (taken
immediately, `millis() = 0`) leaves the durable air state ON and writes
no status byte, in both variants: no re-trigger, no early cutoff. -/
theorem c2_theorem :
    (∀ (eU eT : Nat), eU < U32 → eT < U32 →
       sub32 eU eT < TO_MACHINE_TIME AIR_DURATION →
       (Tek12.loop 0 (Tek12.boot eU 1 eT)).eAirStatus = 1
     ∧ statusWrites (Tek12.loop 0 (Tek12.boot eU 1 eT)).log = [])
  ∧ (∀ (eU eStart eStop : Nat), eU < U32 → eStart < U32 →
       sub32 eU eStart < TO_MACHINE_TIME AIR_DURATION →
       (Tek13.loop 0 (Tek13.boot eU 1 eStart eStop)).eAirStatus = 1
     ∧ statusWrites (Tek13.loop 0 (Tek13.boot eU 1 eStart eStop)).log = []) := by
  constructor
  · intro eU eT hU hT hlt
    have hu : (Tek12.updateLocalUptime 0 (Tek12.boot eU 1 eT)).uptime = eU := by
      show (eU % U32 + sub32 (0 % U32) 0) % U32 = eU
      unfold sub32 U32 at *
      omega
    have hNeed : Tek12.needAir (Tek12.calculateTimeSinceAir
        (Tek12.readAir (Tek12.updateLocalUptime 0 (Tek12.boot eU 1 eT))))
          = true := by
      unfold Tek12.needAir
      rw [Tek12.isAir_pre]
      have h2 : (Tek12.calculateTimeSinceAir (Tek12.readAir
          (Tek12.updateLocalUptime 0 (Tek12.boot eU 1 eT)))).airStart
            = eT % U32 := rfl
      have h3 : (Tek12.calculateTimeSinceAir (Tek12.readAir
          (Tek12.updateLocalUptime 0 (Tek12.boot eU 1 eT)))).uptime
            = (Tek12.updateLocalUptime 0 (Tek12.boot eU 1 eT)).uptime := rfl
      rw [if_pos (show ((Tek12.boot eU 1 eT).eAirStatus == 1) = true from rfl),
          h3, hu, h2, Nat.mod_eq_of_lt hT]
      exact decide_eq_true hlt
    rw [Tek12.loop_on_running12 _ 0 rfl hNeed]
    refine ⟨?_, ?_⟩
    · rw [Tek12.savePhase_eAirStatus12]
      rfl
    · rw [Tek12.statusWrites_savePhase12]
      rfl
  · intro eU eStart eStop hU hS hlt
    have hu : (Tek13.countTime 0 (Tek13.boot eU 1 eStart eStop)).uptime
        = eU := by
      show (eU % U32 + sub32 (0 % U32) 0) % U32 = eU
      unfold sub32 U32 at *
      omega
    have hNeed : Tek13.needAir
        (Tek13.readAir (Tek13.countTime 0 (Tek13.boot eU 1 eStart eStop)))
          = true := by
      unfold Tek13.needAir
      have h2 : (Tek13.readAir
          (Tek13.countTime 0 (Tek13.boot eU 1 eStart eStop))).airStart
            = eStart % U32 := rfl
      have h3 : (Tek13.readAir
          (Tek13.countTime 0 (Tek13.boot eU 1 eStart eStop))).uptime
            = (Tek13.countTime 0 (Tek13.boot eU 1 eStart eStop)).uptime := rfl
      rw [h3, hu, h2, Nat.mod_eq_of_lt hS]
      exact decide_eq_true hlt
    rw [Tek13.loop_on_running _ 0 rfl hNeed]
    refine ⟨?_, ?_⟩
    · rw [Tek13.savePhase_eAirStatus]
      rfl
    · rw [Tek13.statusWrites_savePhase]
      rfl

/-- C2 witness: the snapshot `(uptime = 4000000, ON, start = 3950000)`
satisfies the guard (50000 < 120000) and one post-boot cycle leaves both
variants durably ON. -/
theorem c2_witness :
    (Tek12.loop 0 (Tek12.boot 4000000 1 3950000)).eAirStatus = 1
  ∧ (Tek13.loop 0 (Tek13.boot 4000000 1 3950000 0)).eAirStatus = 1 :=
  ⟨(c2_theorem.1 4000000 3950000 (by decide) (by decide) (by decide)).1,
   (c2_theorem.2 4000000 3950000 0 (by decide) (by decide) (by decide)).1⟩

/-- C7: for any cycle that begins durably ON with start-timestamp `t0`
(in the dual variant `t0` is the persisted `airStart`; in the single
variant it is the volatile `airStart`, which is the field the guard
uses), if the advanced uptime `u` satisfies `u − t0 < AIR_DURATION_MS`
the machine stays ON (state byte still 1, start timestamp unchanged,
actuator not deactivated), and at any cycle where `u − t0 ≥
AIR_DURATION_MS` it takes the ON → OFF transition (state byte 0, stop
timestamp set to `u`, actuator LOW).  Applied cycle by cycle this gives
exactly the claimed window `[t0, t0 + AIR_DURATION_MS)`. -/
theorem c7_theorem :
    (∀ (s : Tek13.State) (m t0 : Nat),
       s.eAirStatus = 1 → s.eAirStart = t0 →
       t0 ≤ (Tek13.countTime m s).uptime →
       (((Tek13.countTime m s).uptime - t0 < TO_MACHINE_TIME AIR_DURATION →
           (Tek13.loop m s).eAirStatus = 1
         ∧ (Tek13.loop m s).eAirStart = t0
         ∧ (Tek13.loop m s).pin6 = true)
      ∧ (TO_MACHINE_TIME AIR_DURATION ≤ (Tek13.countTime m s).uptime - t0 →
           (Tek13.loop m s).eAirStatus = 0
         ∧ (Tek13.loop m s).eAirStop = (Tek13.countTime m s).uptime
         ∧ (Tek13.loop m s).pin6 = false)))
  ∧ (∀ (s : Tek12.State) (m t0 : Nat),
       s.eAirStatus = 1 → s.airStart = t0 →
       t0 ≤ (Tek12.updateLocalUptime m s).uptime →
       (((Tek12.updateLocalUptime m s).uptime - t0
            < TO_MACHINE_TIME AIR_DURATION →
           (Tek12.loop m s).eAirStatus = 1
         ∧ (Tek12.loop m s).airStart = t0
         ∧ (Tek12.loop m s).pin6 = s.pin6)
      ∧ (TO_MACHINE_TIME AIR_DURATION
            ≤ (Tek12.updateLocalUptime m s).uptime - t0 →
           (Tek12.loop m s).eAirStatus = 0
         ∧ (Tek12.loop m s).eAirTime = (Tek12.updateLocalUptime m s).uptime
         ∧ (Tek12.loop m s).pin6 = false))) := by
  constructor
  · intro s m t0 hOn hStart hle
    have hsub : sub32 (Tek13.countTime m s).uptime t0
        = (Tek13.countTime m s).uptime - t0 :=
      sub32_eq_of_le hle (Tek13.countTime_uptime_lt m s)
    constructor
    · intro hlt
      have hNeed : Tek13.needAir (Tek13.readAir (Tek13.countTime m s))
          = true := by
        unfold Tek13.needAir
        rw [show (Tek13.readAir (Tek13.countTime m s)).airStart = t0
              from hStart,
            show (Tek13.readAir (Tek13.countTime m s)).uptime
              = (Tek13.countTime m s).uptime from rfl, hsub]
        exact decide_eq_true hlt
      rw [Tek13.loop_on_running s m hOn hNeed]
      refine ⟨?_, ?_, ?_⟩
      · rw [Tek13.savePhase_eAirStatus]; exact hOn
      · rw [Tek13.savePhase_eAirStart]; exact hStart
      · rw [Tek13.savePhase_pin6]; rfl
    · intro hge
      have hNeed : Tek13.needAir (Tek13.readAir (Tek13.countTime m s))
          = false := by
        unfold Tek13.needAir
        rw [show (Tek13.readAir (Tek13.countTime m s)).airStart = t0
              from hStart,
            show (Tek13.readAir (Tek13.countTime m s)).uptime
              = (Tek13.countTime m s).uptime from rfl, hsub]
        exact decide_eq_false (Nat.not_lt.mpr hge)
      rw [Tek13.loop_on_expired s m hOn hNeed]
      refine ⟨?_, ?_, ?_⟩
      · rw [Tek13.savePhase_eAirStatus]
        exact Tek13.setAirOff_eAirStatus _
      · rw [Tek13.savePhase_eAirStop]
        exact Tek13.setAirOff_eAirStop _
      · rw [Tek13.savePhase_pin6]; rfl
  · intro s m t0 hOn hStart hle
    have hsub : sub32 (Tek12.updateLocalUptime m s).uptime t0
        = (Tek12.updateLocalUptime m s).uptime - t0 :=
      sub32_eq_of_le hle (Tek12.updateLocalUptime_uptime_lt m s)
    have hIs : Tek12.isAir (Tek12.calculateTimeSinceAir
        (Tek12.readAir (Tek12.updateLocalUptime m s))) = true := by
      rw [Tek12.isAir_pre, hOn]; rfl
    constructor
    · intro hlt
      have hNeed : Tek12.needAir (Tek12.calculateTimeSinceAir
          (Tek12.readAir (Tek12.updateLocalUptime m s))) = true := by
        unfold Tek12.needAir
        rw [if_pos hIs,
            show (Tek12.calculateTimeSinceAir (Tek12.readAir
              (Tek12.updateLocalUptime m s))).airStart = t0 from hStart,
            show (Tek12.calculateTimeSinceAir (Tek12.readAir
              (Tek12.updateLocalUptime m s))).uptime
              = (Tek12.updateLocalUptime m s).uptime from rfl, hsub]
        exact decide_eq_true hlt
      rw [Tek12.loop_on_running12 s m hOn hNeed]
      refine ⟨?_, ?_, ?_⟩
      · rw [Tek12.savePhase_eAirStatus12]; exact hOn
      · rw [Tek12.savePhase_airStart]; exact hStart
      · rw [Tek12.savePhase_pin612]; rfl
    · intro hge
      have hNeed : Tek12.needAir (Tek12.calculateTimeSinceAir
          (Tek12.readAir (Tek12.updateLocalUptime m s))) = false := by
        unfold Tek12.needAir
        rw [if_pos hIs,
            show (Tek12.calculateTimeSinceAir (Tek12.readAir
              (Tek12.updateLocalUptime m s))).airStart = t0 from hStart,
            show (Tek12.calculateTimeSinceAir (Tek12.readAir
              (Tek12.updateLocalUptime m s))).uptime
              = (Tek12.updateLocalUptime m s).uptime from rfl, hsub]
        exact decide_eq_false (Nat.not_lt.mpr hge)
      rw [Tek12.loop_on_expired12 s m hOn hNeed]
      refine ⟨?_, ?_, ?_⟩
      · rw [Tek12.savePhase_eAirStatus12]
        exact Tek12.stopAir_eAirStatus _
      · rw [Tek12.savePhase_eAirTime]
        exact Tek12.stopAir_eAirTime _
      · rw [Tek12.savePhase_pin612]; rfl

/-- C7 witness: with start timestamp 1000, a cycle at uptime 50000
(49000 ms into the window) stays ON in both variants, and a cycle at
uptime 200000 (199000 ms ≥ 120000 ms) transitions to OFF in both. -/
theorem c7_witness :
    (Tek13.loop 0 (Tek13.boot 50000 1 1000 0)).eAirStatus = 1
  ∧ (Tek13.loop 0 (Tek13.boot 200000 1 1000 0)).eAirStatus = 0
  ∧ (Tek12.loop 0 (Tek12.boot 50000 1 1000)).eAirStatus = 1
  ∧ (Tek12.loop 0 (Tek12.boot 200000 1 1000)).eAirStatus = 0 :=
  ⟨((c7_theorem.1 (Tek13.boot 50000 1 1000 0) 0 1000 rfl rfl
      (by decide)).1 (by decide)).1,
   ((c7_theorem.1 (Tek13.boot 200000 1 1000 0) 0 1000 rfl rfl
      (by decide)).2 (by decide)).1,
   ((c7_theorem.2 (Tek12.boot 50000 1 1000) 0 1000 rfl rfl
      (by decide)).1 (by decide)).1,
   ((c7_theorem.2 (Tek12.boot 200000 1 1000) 0 1000 rfl rfl
      (by decide)).2 (by decide)).1⟩

/-- C1 amended: on the OFF → ON transition, the dual-timestamp variant
persists the state byte, the start timestamp (= current uptime) and an
uptime checkpoint in the same cycle — all before the next cycle's read —
but leaves the actuator line unchanged until the next cycle; the
single-timestamp variant drives the actuator HIGH and persists the
state byte in the same cycle, but keeps the start timestamp only in
volatile memory (the durable timestamp field is untouched). -/
theorem c1_theorem :
    (∀ (s : Tek13.State) (m : Nat),
       s.eAirStatus ≠ 1 →
       Tek13.scheduledAir (Tek13.readAir (Tek13.countTime m s)) = true →
       (Tek13.loop m s).eAirStatus = 1
     ∧ (Tek13.loop m s).eAirStart = (Tek13.countTime m s).uptime
     ∧ (Tek13.loop m s).eUptime = (Tek13.countTime m s).uptime
     ∧ (Tek13.loop m s).uptimeStoreTime = (Tek13.countTime m s).uptime
     ∧ (Tek13.loop m s).pin6 = s.pin6)
  ∧ (∀ (s : Tek12.State) (m : Nat),
       s.eAirStatus ≠ 1 →
       Tek12.needAir (Tek12.calculateTimeSinceAir
         (Tek12.readAir (Tek12.updateLocalUptime m s))) = true →
       (Tek12.loop m s).eAirStatus = 1
     ∧ (Tek12.loop m s).airStart = (Tek12.updateLocalUptime m s).uptime
     ∧ (Tek12.loop m s).eAirTime = s.eAirTime
     ∧ (Tek12.loop m s).pin6 = true) := by
  constructor
  · intro s m hOff hSched
    rw [Tek13.loop_off_sched s m hOff hSched]
    refine ⟨?_, ?_, ?_, ?_, ?_⟩
    · rw [Tek13.savePhase_eAirStatus]
      exact Tek13.setAirOn_eAirStatus _
    · rw [Tek13.savePhase_eAirStart]
      exact Tek13.setAirOn_eAirStart _
    · have h := Tek13.savePhase_eUptime_of_eq
        (s := Tek13.setAirOn (Tek13.readAir (Tek13.countTime m s)))
        (by rw [Tek13.setAirOn_eUptime, Tek13.setAirOn_uptime])
      rw [Tek13.setAirOn_uptime] at h
      exact h
    · have h := Tek13.savePhase_store_of_eq
        (s := Tek13.setAirOn (Tek13.readAir (Tek13.countTime m s)))
        (by rw [Tek13.setAirOn_uptimeStoreTime, Tek13.setAirOn_uptime])
      rw [Tek13.setAirOn_uptime] at h
      exact h
    · rw [Tek13.savePhase_pin6]
      exact Tek13.setAirOn_pin6 _
  · intro s m hOff hNeed
    rw [Tek12.loop_off_trigger s m hOff hNeed]
    refine ⟨?_, ?_, ?_, ?_⟩
    · rw [Tek12.savePhase_eAirStatus12]
      exact Tek12.startAir_eAirStatus _
    · rw [Tek12.savePhase_airStart]
      exact Tek12.startAir_airStart _
    · rw [Tek12.savePhase_eAirTime]
      exact Tek12.startAir_eAirTime _
    · rw [Tek12.savePhase_pin612]
      exact Tek12.startAir_pin6 _

/-- C1 witness: the OFF snapshot with uptime 4000000 and stop timestamp
0 triggers the OFF → ON transition one cycle after boot, in both
variants. -/
theorem c1_witness :
    (Tek13.loop 0 (Tek13.boot 4000000 0 0 0)).eAirStart = 4000000
  ∧ (Tek13.loop 0 (Tek13.boot 4000000 0 0 0)).eUptime = 4000000
  ∧ (Tek12.loop 0 (Tek12.boot 4000000 0 0)).eAirStatus = 1
  ∧ (Tek12.loop 0 (Tek12.boot 4000000 0 0)).eAirTime = 0 := by
  have h13 := c1_theorem.1 (Tek13.boot 4000000 0 0 0) 0
    (by decide) (by decide)
  have h12 := c1_theorem.2 (Tek12.boot 4000000 0 0) 0
    (by decide) (by decide)
  exact ⟨by
      have := h13.2.1
      rwa [show (Tek13.countTime 0 (Tek13.boot 4000000 0 0 0)).uptime
        = 4000000 by decide] at this,
    by
      have := h13.2.2.1
      rwa [show (Tek13.countTime 0 (Tek13.boot 4000000 0 0 0)).uptime
        = 4000000 by decide] at this,
    h12.1, h12.2.2.1⟩

/-- C3 amended: in the dual-timestamp variant, every air-state
transition (OFF → ON via `setAirOn` and ON → OFF via `setAirOff`)
performs an uptime checkpoint in the same cycle — it durably writes the
current uptime and sets the last-checkpoint value to it, regardless of
the periodic interval; in the single-timestamp variants, neither
`startAir` nor `stopAir` checkpoints uptime (counterexample). -/
theorem c3_theorem :
    ∀ (s : Tek13.State) (m : Nat),
      (s.eAirStatus ≠ 1 →
       Tek13.scheduledAir (Tek13.readAir (Tek13.countTime m s)) = true →
         (Tek13.loop m s).uptimeStoreTime = (Tek13.countTime m s).uptime
       ∧ (Tek13.loop m s).eUptime = (Tek13.countTime m s).uptime
       ∧ Ev.evUptime (Tek13.countTime m s).uptime ∈ (Tek13.loop m s).log)
    ∧ (s.eAirStatus = 1 →
       Tek13.needAir (Tek13.readAir (Tek13.countTime m s)) = false →
         (Tek13.loop m s).uptimeStoreTime = (Tek13.countTime m s).uptime
       ∧ (Tek13.loop m s).eUptime = (Tek13.countTime m s).uptime
       ∧ Ev.evUptime (Tek13.countTime m s).uptime ∈ (Tek13.loop m s).log) := by
  intro s m
  constructor
  · intro hOff hSched
    rw [Tek13.loop_off_sched s m hOff hSched]
    refine ⟨?_, ?_, ?_⟩
    · have h := Tek13.savePhase_store_of_eq
        (s := Tek13.setAirOn (Tek13.readAir (Tek13.countTime m s)))
        (by rw [Tek13.setAirOn_uptimeStoreTime, Tek13.setAirOn_uptime])
      rw [Tek13.setAirOn_uptime] at h
      exact h
    · have h := Tek13.savePhase_eUptime_of_eq
        (s := Tek13.setAirOn (Tek13.readAir (Tek13.countTime m s)))
        (by rw [Tek13.setAirOn_eUptime, Tek13.setAirOn_uptime])
      rw [Tek13.setAirOn_uptime] at h
      exact h
    · exact Tek13.mem_savePhase_log
        (Tek13.evUptime_mem_setAirOn (Tek13.readAir (Tek13.countTime m s)))
  · intro hOn hNeed
    rw [Tek13.loop_on_expired s m hOn hNeed]
    refine ⟨?_, ?_, ?_⟩
    · have h := Tek13.savePhase_store_of_eq
        (s := Tek13.deviceSetOff
          (Tek13.setAirOff (Tek13.readAir (Tek13.countTime m s))))
        (by
          show (Tek13.setAirOff (Tek13.readAir
            (Tek13.countTime m s))).uptimeStoreTime = _
          rw [Tek13.setAirOff_uptimeStoreTime]
          exact (Tek13.setAirOff_uptime _).symm)
      rw [show (Tek13.deviceSetOff (Tek13.setAirOff (Tek13.readAir
            (Tek13.countTime m s)))).uptime
          = (Tek13.readAir (Tek13.countTime m s)).uptime from
          Tek13.setAirOff_uptime _] at h
      exact h
    · have h := Tek13.savePhase_eUptime_of_eq
        (s := Tek13.deviceSetOff
          (Tek13.setAirOff (Tek13.readAir (Tek13.countTime m s))))
        (by
          show (Tek13.setAirOff (Tek13.readAir
            (Tek13.countTime m s))).eUptime = _
          rw [Tek13.setAirOff_eUptime]
          exact (Tek13.setAirOff_uptime _).symm)
      rw [show (Tek13.deviceSetOff (Tek13.setAirOff (Tek13.readAir
            (Tek13.countTime m s)))).uptime
          = (Tek13.readAir (Tek13.countTime m s)).uptime from
          Tek13.setAirOff_uptime _] at h
      exact h
    · exact Tek13.mem_savePhase_log
        (Tek13.evUptime_mem_setAirOff (Tek13.readAir (Tek13.countTime m s)))

/-- C3 witness: an OFF → ON cycle (snapshot uptime 4000000, stop 0) and
an ON → OFF cycle (snapshot uptime 200000, start 1000) both set the
checkpoint to the cycle's uptime in the dual-timestamp variant. -/
theorem c3_witness :
    (Tek13.loop 0 (Tek13.boot 4000000 0 0 0)).uptimeStoreTime = 4000000
  ∧ (Tek13.loop 0 (Tek13.boot 200000 1 1000 0)).uptimeStoreTime = 200000 := by
  have h1 := (c3_theorem (Tek13.boot 4000000 0 0 0) 0).1
    (by decide) (by decide)
  have h2 := (c3_theorem (Tek13.boot 200000 1 1000 0) 0).2
    (by decide) (by decide)
  exact ⟨by
      have := h1.1
      rwa [show (Tek13.countTime 0 (Tek13.boot 4000000 0 0 0)).uptime
        = 4000000 by decide] at this,
    by
      have := h2.1
      rwa [show (Tek13.countTime 0 (Tek13.boot 200000 1 1000 0)).uptime
        = 200000 by decide] at this⟩

/-- C8: for every initial state and every sequence of per-cycle tick
deltas summing to less than one rollover period (`2^32` ms), iterating
the accumulator advance step once per cycle (with the hardware tick
advancing by each delta, wrapping modulo `2^32`) yields an accumulated
uptime equal to the initial uptime plus the exact sum of the deltas
(modulo the 32-bit width of `uptime` itself; exactly, whenever the true
total also fits in 32 bits). -/
theorem c8_theorem :
    (∀ (s : Tek13.State) (ds : List Nat),
       s.uptime < U32 → s.previousUptime < U32 → ds.sum < U32 →
       (Tek13.advanceRun ds s).uptime = (s.uptime + ds.sum) % U32
     ∧ (s.uptime + ds.sum < U32 →
        (Tek13.advanceRun ds s).uptime = s.uptime + ds.sum))
  ∧ (∀ (s : Tek12.State) (ds : List Nat),
       s.uptime < U32 → s.previousUptime < U32 → ds.sum < U32 →
       (Tek12.advanceRun ds s).uptime = (s.uptime + ds.sum) % U32
     ∧ (s.uptime + ds.sum < U32 →
        (Tek12.advanceRun ds s).uptime = s.uptime + ds.sum)) := by
  constructor
  · intro s ds hu hp hs
    have h := Tek13.advanceRun_uptime ds s hu hp hs
    exact ⟨h, fun hfit => by rw [h, Nat.mod_eq_of_lt hfit]⟩
  · intro s ds hu hp hs
    have h := Tek12.advanceRun_uptime12 ds s hu hp hs
    exact ⟨h, fun hfit => by rw [h, Nat.mod_eq_of_lt hfit]⟩

/-- C8 witness: from a blank boot, three cycles of 1000, 2000 and
60000 ms accumulate exactly 63000 ms in both variants. -/
theorem c8_witness :
    (Tek13.advanceRun [1000, 2000, 60000] (Tek13.boot 0 0 0 0)).uptime
      = 63000
  ∧ (Tek12.advanceRun [1000, 2000, 60000] (Tek12.boot 0 0 0)).uptime
      = 63000 := by
  constructor
  · have h := (c8_theorem.1 (Tek13.boot 0 0 0 0) [1000, 2000, 60000]
      (by decide) (by decide) (by decide)).2 (by decide)
    rw [h]
    decide
  · have h := (c8_theorem.2 (Tek12.boot 0 0 0) [1000, 2000, 60000]
      (by decide) (by decide) (by decide)).2 (by decide)
    rw [h]
    decide

/-- C4 amended: the checkpoint-lag invariant
`uptime − lastCheckpoint ≤ STORE_INTERVAL` (evaluated at the end of a
cycle; mid-cycle it additionally lags by that cycle's delta) is
preserved, in both variants, by every cycle in which the accumulated
uptime does not wrap past `2^32`.  (Near the wraparound the strict
32-bit comparison of `periodicUptimeSave` can be jumped over and the
invariant fails — see the counterexample.) -/
theorem c4_theorem :
    (∀ (s : Tek13.State) (m : Nat),
      s.uptimeStoreTime ≤ s.uptime →
      s.uptime - s.uptimeStoreTime ≤ TO_MACHINE_TIME UPTIME_STORE_INTERVAL →
      s.uptime + sub32 (m % U32) s.previousUptime < U32 →
      (Tek13.loop m s).uptimeStoreTime ≤ (Tek13.loop m s).uptime
    ∧ (Tek13.loop m s).uptime - (Tek13.loop m s).uptimeStoreTime
        ≤ TO_MACHINE_TIME UPTIME_STORE_INTERVAL)
  ∧ (∀ (s : Tek12.State) (m : Nat),
      s.uptimeStoreTime ≤ s.uptime →
      s.uptime - s.uptimeStoreTime ≤ TO_MACHINE_TIME UPTIME_STORE_INTERVAL →
      s.uptime + sub32 (m % U32) s.previousUptime < U32 →
      (Tek12.loop m s).uptimeStoreTime ≤ (Tek12.loop m s).uptime
    ∧ (Tek12.loop m s).uptime - (Tek12.loop m s).uptimeStoreTime
        ≤ TO_MACHINE_TIME UPTIME_STORE_INTERVAL) := by
  constructor
  swap
  · intro s m h2 h3 h4
    rw [machineStore] at h3 ⊢
    have hd : (Tek12.updateLocalUptime m s).uptime
        = s.uptime + sub32 (m % U32) s.previousUptime := Nat.mod_eq_of_lt h4
    have hu_air : (Tek12.airPhase (Tek12.calculateTimeSinceAir
        (Tek12.readAir (Tek12.updateLocalUptime m s)))).uptime
        = (Tek12.updateLocalUptime m s).uptime :=
      Tek12.airPhase_uptime12 _
    have hst_air : (Tek12.airPhase (Tek12.calculateTimeSinceAir
        (Tek12.readAir (Tek12.updateLocalUptime m s)))).uptimeStoreTime
        = s.uptimeStoreTime :=
      Tek12.airPhase_storeTime12 _
    by_cases hp : Tek12.periodicUptimeSave (Tek12.airPhase
        (Tek12.calculateTimeSinceAir
          (Tek12.readAir (Tek12.updateLocalUptime m s)))) = true
    · have hloop : Tek12.loop m s
          = Tek12.storeUptime (Tek12.airPhase (Tek12.calculateTimeSinceAir
              (Tek12.readAir (Tek12.updateLocalUptime m s)))) := by
        unfold Tek12.loop Tek12.savePhase
        rw [hp]
        rfl
      rw [hloop]
      exact ⟨Nat.le_refl _, by simp [Tek12.storeUptime]⟩
    · have hp' : Tek12.periodicUptimeSave (Tek12.airPhase
          (Tek12.calculateTimeSinceAir
            (Tek12.readAir (Tek12.updateLocalUptime m s)))) = false := by
        simpa using hp
      have hloop : Tek12.loop m s
          = Tek12.airPhase (Tek12.calculateTimeSinceAir
              (Tek12.readAir (Tek12.updateLocalUptime m s))) := by
        unfold Tek12.loop Tek12.savePhase
        rw [hp']
        rfl
      have hkey : ¬ (((Tek12.airPhase (Tek12.calculateTimeSinceAir
            (Tek12.readAir (Tek12.updateLocalUptime m s)))).uptimeStoreTime
              + TO_MACHINE_TIME UPTIME_STORE_INTERVAL) % U32
            < (Tek12.airPhase (Tek12.calculateTimeSinceAir
                (Tek12.readAir (Tek12.updateLocalUptime m s)))).uptime) :=
        of_decide_eq_false hp'
      rw [hu_air, hst_air, machineStore] at hkey
      rw [hloop, hu_air, hst_air]
      have hmono : s.uptime ≤ (Tek12.updateLocalUptime m s).uptime := by
        rw [hd]; exact Nat.le_add_right _ _
      unfold U32 at hkey
      constructor
      · omega
      · omega
  intro s m h2 h3 h4
  rw [machineStore] at h3 ⊢
  have hd : (Tek13.countTime m s).uptime
      = s.uptime + sub32 (m % U32) s.previousUptime := Nat.mod_eq_of_lt h4
  have hu_air : (Tek13.airPhase (Tek13.readAir (Tek13.countTime m s))).uptime
      = (Tek13.countTime m s).uptime :=
    Tek13.airPhase_uptime _
  by_cases hp : Tek13.periodicUptimeSave
      (Tek13.airPhase (Tek13.readAir (Tek13.countTime m s))) = true
  · have hloop : Tek13.loop m s
        = Tek13.storeUptime
            (Tek13.airPhase (Tek13.readAir (Tek13.countTime m s))) := by
      unfold Tek13.loop Tek13.savePhase
      rw [hp]
      rfl
    rw [hloop]
    exact ⟨Nat.le_refl _, by simp [Tek13.storeUptime]⟩
  · have hp' : Tek13.periodicUptimeSave
        (Tek13.airPhase (Tek13.readAir (Tek13.countTime m s))) = false := by
      simpa using hp
    have hloop : Tek13.loop m s
        = Tek13.airPhase (Tek13.readAir (Tek13.countTime m s)) := by
      unfold Tek13.loop Tek13.savePhase
      rw [hp']
      rfl
    have hkey : ¬ (((Tek13.airPhase (Tek13.readAir
          (Tek13.countTime m s))).uptimeStoreTime
            + TO_MACHINE_TIME UPTIME_STORE_INTERVAL) % U32
          < (Tek13.airPhase (Tek13.readAir (Tek13.countTime m s))).uptime) :=
      of_decide_eq_false hp'
    rw [hloop]
    rcases Tek13.airPhase_storeTime (Tek13.readAir (Tek13.countTime m s))
        with h | h
    · rw [hu_air, h] at hkey ⊢
      have hts : (Tek13.readAir (Tek13.countTime m s)).uptimeStoreTime
          = s.uptimeStoreTime := rfl
      rw [hts] at hkey ⊢
      rw [machineStore] at hkey
      have hmono : s.uptime ≤ (Tek13.countTime m s).uptime := by
        rw [hd]; exact Nat.le_add_right _ _
      unfold U32 at hkey
      constructor
      · omega
      · omega
    · rw [hu_air, h] at hkey ⊢
      have hup : (Tek13.readAir (Tek13.countTime m s)).uptime
          = (Tek13.countTime m s).uptime := rfl
      rw [hup]
      omega

/-- C4 witness: a mid-life state (uptime 200000, checkpoint 150000, no
wrap this cycle) keeps the 60000 ms checkpoint-lag bound after one
cycle, in both variants. -/
theorem c4_witness :
    (Tek13.loop 0
      { uptime := 200000, uptimeStoreTime := 150000, previousUptime := 0
      , airStatus := 0, airStart := 0, airStop := 0, eUptime := 150000
      , eAirStatus := 1, eAirStart := 150000, eAirStop := 0, pin6 := false
      , log := [] }).uptime
      - (Tek13.loop 0
      { uptime := 200000, uptimeStoreTime := 150000, previousUptime := 0
      , airStatus := 0, airStart := 0, airStop := 0, eUptime := 150000
      , eAirStatus := 1, eAirStart := 150000, eAirStop := 0, pin6 := false
      , log := [] }).uptimeStoreTime
      ≤ TO_MACHINE_TIME UPTIME_STORE_INTERVAL
  ∧ (Tek12.loop 0
      { uptime := 200000, uptimeStoreTime := 150000, previousUptime := 0
      , lastAir := 0, airStatus := 0, airStart := 150000, timeSinceAir := 0
      , eUptime := 150000, eAirStatus := 1, eAirTime := 150000, pin6 := false
      , log := [] }).uptime
      - (Tek12.loop 0
      { uptime := 200000, uptimeStoreTime := 150000, previousUptime := 0
      , lastAir := 0, airStatus := 0, airStart := 150000, timeSinceAir := 0
      , eUptime := 150000, eAirStatus := 1, eAirTime := 150000, pin6 := false
      , log := [] }).uptimeStoreTime
      ≤ TO_MACHINE_TIME UPTIME_STORE_INTERVAL :=
  ⟨(c4_theorem.1
    { uptime := 200000, uptimeStoreTime := 150000, previousUptime := 0
    , airStatus := 0, airStart := 0, airStop := 0, eUptime := 150000
    , eAirStatus := 1, eAirStart := 150000, eAirStop := 0, pin6 := false
    , log := [] } 0
    (by decide) (by decide) (by decide)).2,
   (c4_theorem.2
    { uptime := 200000, uptimeStoreTime := 150000, previousUptime := 0
    , lastAir := 0, airStatus := 0, airStart := 150000, timeSinceAir := 0
    , eUptime := 150000, eAirStatus := 1, eAirTime := 150000, pin6 := false
    , log := [] } 0
    (by decide) (by decide) (by decide)).2⟩

/-- C6 amended: in the dual-timestamp variant, a cycle that takes no
air-state transition performs at most one durable uptime write, and
performs it exactly when the 32-bit comparison
`uptime > lastCheckpoint + 60000` holds — i.e. periodic checkpoints are
throttled to the store interval.  Transition cycles, however, force an
additional checkpoint via `setAirOn`/`setAirOff` regardless of the
throttle, so two uptime writes can fall within one 60000 ms window
(see the counterexample). -/
theorem c6_theorem :
    ∀ (s : Tek13.State) (m : Nat),
      (s.eAirStatus = 1 →
        Tek13.needAir (Tek13.readAir (Tek13.countTime m s)) = true) →
      (s.eAirStatus ≠ 1 →
        Tek13.scheduledAir (Tek13.readAir (Tek13.countTime m s)) = false) →
      (((s.uptimeStoreTime + TO_MACHINE_TIME UPTIME_STORE_INTERVAL) % U32
          < (Tek13.countTime m s).uptime →
        (Tek13.loop m s).log
          = s.log ++ [Ev.evUptime (Tek13.countTime m s).uptime])
     ∧ ((Tek13.countTime m s).uptime
          ≤ (s.uptimeStoreTime + TO_MACHINE_TIME UPTIME_STORE_INTERVAL) % U32 →
        (Tek13.loop m s).log = s.log)) := by
  intro s m hOnNeed hOffSched
  by_cases hOn : s.eAirStatus = 1
  · rw [Tek13.loop_on_running s m hOn (hOnNeed hOn)]
    constructor
    · intro hc
      have hp : Tek13.periodicUptimeSave (Tek13.deviceSetOn
          (Tek13.readAir (Tek13.countTime m s))) = true := decide_eq_true hc
      unfold Tek13.savePhase
      rw [hp]
      rfl
    · intro hc
      have hp : Tek13.periodicUptimeSave (Tek13.deviceSetOn
          (Tek13.readAir (Tek13.countTime m s))) = false :=
        decide_eq_false (Nat.not_lt.mpr hc)
      unfold Tek13.savePhase
      rw [hp]
      rfl
  · rw [Tek13.loop_off_idle s m hOn (hOffSched hOn)]
    constructor
    · intro hc
      have hp : Tek13.periodicUptimeSave
          (Tek13.readAir (Tek13.countTime m s)) = true := decide_eq_true hc
      unfold Tek13.savePhase
      rw [hp]
      rfl
    · intro hc
      have hp : Tek13.periodicUptimeSave
          (Tek13.readAir (Tek13.countTime m s)) = false :=
        decide_eq_false (Nat.not_lt.mpr hc)
      unfold Tek13.savePhase
      rw [hp]
      rfl

/-- C6 witness: a transition-free ON cycle whose uptime (200000) exceeds
the checkpoint (100000) by more than 60000 ms performs exactly the one
periodic uptime write; the same cycle started below the threshold
(uptime 100000, checkpoint 100000 at boot) performs none. -/
theorem c6_witness :
    (Tek13.loop 0
      { uptime := 200000, uptimeStoreTime := 100000, previousUptime := 0
      , airStatus := 0, airStart := 0, airStop := 0, eUptime := 100000
      , eAirStatus := 1, eAirStart := 150000, eAirStop := 0, pin6 := false
      , log := [] }).log = [Ev.evUptime 200000]
  ∧ (Tek13.loop 0 (Tek13.boot 100000 1 50000 0)).log = [] := by
  constructor
  · have h := (c6_theorem
      { uptime := 200000, uptimeStoreTime := 100000, previousUptime := 0
      , airStatus := 0, airStart := 0, airStop := 0, eUptime := 100000
      , eAirStatus := 1, eAirStart := 150000, eAirStop := 0, pin6 := false
      , log := [] } 0 (fun _ => by decide) (by intro h; exact absurd rfl h)).1
      (by decide)
    rw [h]
    decide
  · exact (c6_theorem (Tek13.boot 100000 1 50000 0) 0
      (fun _ => by decide) (by intro h; exact absurd rfl h)).2 (by decide)

/-- C6 counterexample: from a blank EEPROM, with every cycle cadence at
most 60000 ms (60 cycles of 60000 ms, then one of 1000 ms), the run
performs durable uptime writes at accumulated uptimes 3600000 (periodic
checkpoint) and 3601000 (checkpoint forced by the OFF → ON transition's
`setAirOn`) — two uptime writes only 1000 ms of accumulated uptime
apart, inside a single 60000 ms window. -/
theorem c6_counterexample :
    3600000 ∈ uptimeWrites (Tek13.run c6millis (Tek13.boot 0 0 0 0)).log
  ∧ 3601000 ∈ uptimeWrites (Tek13.run c6millis (Tek13.boot 0 0 0 0)).log
  ∧ 3601000 - 3600000 < TO_MACHINE_TIME UPTIME_STORE_INTERVAL
  ∧ cadenceLe (TO_MACHINE_TIME UPTIME_STORE_INTERVAL) 0 c6millis = true := by
  decide

end AVR
